import Mathlib

/-!
Shallow embedding of the animation engine of the animated contribution
heatmap (source file `src/hooks/useAnimationPatterns.ts`), together with
proofs about its pattern step functions and the engine state machine.

Grids (`number[][]` in the source) are embedded as `List (List Int)`.
The engine's mutable React state (`grid` and `animationState`) becomes an
explicit `EngineState` record threaded through the operations.  Calls to
`Math.random()` and the floating-point trigonometric thresholds of the
wave/spiral patterns are modelled as oracle inputs supplied per tick: they
are the only parts of a step the source does not compute from the grid and
the pattern-local state by exact arithmetic.  The ripple pattern's ring
test, which the source computes with `Math.sqrt` over floats, is embedded
as its exact equivalent over rationals.
-/

namespace ContribHeatmap

/-- A grid is a row-major matrix of integer cells (`number[][]`). -/
abbrev Grid := List (List Int)

/-- Read cell `(r, c)` of a grid; out-of-range reads default to `0`.
All theorems below keep reads inside the bounds where this agrees with
the source's `currentGrid[r][c]`. -/
def getCell (g : Grid) (r c : Nat) : Int :=
  (g.getD r []).getD c 0

/-- Write `v` to cell `(r, c)`; out-of-range writes are dropped.  All
theorems below keep writes inside the bounds where this agrees with the
source's `newGrid[r][c] = v`. -/
def setCell (g : Grid) (r c : Nat) (v : Int) : Grid :=
  g.set r ((g.getD r []).set c v)

/-- The grid has exactly `rows` rows, each of exactly `cols` cells. -/
def wellFormed (rows cols : Nat) (g : Grid) : Prop :=
  g.length = rows ∧ ∀ row ∈ g, row.length = cols

/-- Every cell of the grid is `0` or `1`. -/
def cells01 (g : Grid) : Prop :=
  ∀ row ∈ g, ∀ v ∈ row, v = 0 ∨ v = 1

instance (rows cols : Nat) (g : Grid) : Decidable (wellFormed rows cols g) := by
  unfold wellFormed; infer_instance

instance (g : Grid) : Decidable (cells01 g) := by
  unfold cells01; infer_instance

lemma length_setCell (g : Grid) (r c : Nat) (v : Int) :
    (setCell g r c v).length = g.length := by
  simp [setCell]

lemma mem_of_mem_set {α : Type} {l : List α} {i : Nat} {a x : α}
    (h : x ∈ l.set i a) : x ∈ l ∨ x = a := by
  induction l generalizing i with
  | nil => simp [List.set] at h
  | cons hd tl ih =>
    cases i with
    | zero =>
      rcases List.mem_cons.mp h with h | h
      · right; exact h
      · left; exact List.mem_cons_of_mem _ h
    | succ n =>
      rcases List.mem_cons.mp h with h | h
      · left; exact h ▸ List.mem_cons_self _ _
      · rcases ih h with h | h
        · left; exact List.mem_cons_of_mem _ h
        · right; exact h

lemma getD_of_lt {α : Type} (l : List α) (i : Nat) (d : α) (h : i < l.length) :
    l.getD i d = l[i] := by
  simp [List.getD_eq_getElem?_getD, List.getElem?_eq_getElem h]

lemma getD_of_le {α : Type} (l : List α) (i : Nat) (d : α) (h : l.length ≤ i) :
    l.getD i d = d := by
  simp [List.getD_eq_getElem?_getD, List.getElem?_eq_none h]

lemma row_len_of_wf {rows cols : Nat} {g : Grid} (h : wellFormed rows cols g)
    {r : Nat} (hr : r < rows) : (g.getD r []).length = cols := by
  have hlen : r < g.length := by rw [h.1]; exact hr
  rw [getD_of_lt _ _ _ hlen]
  exact h.2 _ (List.getElem_mem hlen)

lemma setCell_of_oob {g : Grid} {r : Nat} (h : g.length ≤ r) (c : Nat) (v : Int) :
    setCell g r c v = g := by
  simp [setCell, List.set_eq_of_length_le h]

lemma wellFormed_setCell {rows cols : Nat} {g : Grid}
    (h : wellFormed rows cols g) (r c : Nat) (v : Int) :
    wellFormed rows cols (setCell g r c v) := by
  by_cases hr : r < g.length
  · refine ⟨by rw [length_setCell]; exact h.1, ?_⟩
    intro row hrow
    rcases mem_of_mem_set hrow with hmem | rfl
    · exact h.2 row hmem
    · rw [List.length_set]
      exact row_len_of_wf h (h.1 ▸ hr)
  · rw [setCell_of_oob (Nat.le_of_not_lt hr)]
    exact h

lemma getD_set_self {α : Type} (l : List α) {i : Nat} (a d : α)
    (h : i < l.length) : (l.set i a).getD i d = a := by
  rw [List.getD_eq_getElem?_getD, List.getElem?_set_eq_of_lt a h]
  rfl

lemma getD_set_ne {α : Type} (l : List α) {i j : Nat} (h : i ≠ j) (a d : α) :
    (l.set i a).getD j d = l.getD j d := by
  rw [List.getD_eq_getElem?_getD, List.getElem?_set_ne h,
    ← List.getD_eq_getElem?_getD]

lemma cells01_setCell {g : Grid} (h : cells01 g) {v : Int}
    (hv : v = 0 ∨ v = 1) (r c : Nat) : cells01 (setCell g r c v) := by
  by_cases hr : r < g.length
  · intro row hrow
    rcases mem_of_mem_set hrow with hmem | rfl
    · exact h row hmem
    · intro w hw
      rw [getD_of_lt g r [] hr] at hw
      rcases mem_of_mem_set hw with hmem | rfl
      · exact h _ (List.getElem_mem hr) w hmem
      · exact hv
  · rw [setCell_of_oob (Nat.le_of_not_lt hr)]
    exact h

lemma cells01_getCell {g : Grid} (h : cells01 g) (r c : Nat) :
    getCell g r c = 0 ∨ getCell g r c = 1 := by
  unfold getCell
  by_cases hr : r < g.length
  · rw [getD_of_lt g r [] hr]
    by_cases hc : c < g[r].length
    · rw [getD_of_lt _ c 0 hc]
      exact h _ (List.getElem_mem hr) _ (List.getElem_mem hc)
    · rw [getD_of_le _ c 0 (Nat.le_of_not_lt hc)]; left; rfl
  · rw [getD_of_le g r [] (Nat.le_of_not_lt hr)]
    simp [List.getD]

lemma getCell_setCell_self {rows cols : Nat} {g : Grid}
    (h : wellFormed rows cols g) {r c : Nat} (hr : r < rows) (hc : c < cols)
    (v : Int) : getCell (setCell g r c v) r c = v := by
  have hlen : r < g.length := h.1 ▸ hr
  have hclen : c < (g.getD r []).length := by rw [row_len_of_wf h hr]; exact hc
  unfold getCell setCell
  rw [getD_set_self g _ _ hlen]
  exact getD_set_self _ _ _ hclen

lemma getCell_setCell_ne {g : Grid} {r c r' c' : Nat}
    (h : r ≠ r' ∨ c ≠ c') (v : Int) :
    getCell (setCell g r c v) r' c' = getCell g r' c' := by
  by_cases hrr : r = r'
  · subst hrr
    have hcc : c ≠ c' := by tauto
    by_cases hlen : r < g.length
    · unfold getCell setCell
      rw [getD_set_self g _ _ hlen, getD_set_ne _ hcc]
    · rw [setCell_of_oob (Nat.le_of_not_lt hlen)]
  · unfold getCell setCell
    rw [getD_set_ne g hrr]

lemma foldl_preserve {β : Type} {P : Grid → Prop} (f : Grid → β → Grid)
    (hf : ∀ g b, P g → P (f g b)) :
    ∀ (l : List β) (g : Grid), P g → P (l.foldl f g) := by
  intro l
  induction l with
  | nil => intro g hg; simpa using hg
  | cons b l ih =>
    intro g hg
    simpa using ih _ (hf g b hg)

/-- Fresh `rows × cols` grid with every cell assigned `F r c`.  This embeds
the source idiom "allocate a fresh grid and assign every cell inside a
double loop over all rows and columns, reading only from `currentGrid`". -/
def mkGrid (rows cols : Nat) (F : Nat → Nat → Int) : Grid :=
  (List.range rows).map fun r => (List.range cols).map fun c => F r c

lemma wellFormed_mkGrid (rows cols : Nat) (F : Nat → Nat → Int) :
    wellFormed rows cols (mkGrid rows cols F) := by
  constructor
  · simp [mkGrid]
  · intro row hrow
    simp only [mkGrid, List.mem_map, List.mem_range] at hrow
    obtain ⟨r, _, rfl⟩ := hrow
    simp

lemma cells01_mkGrid (rows cols : Nat) {F : Nat → Nat → Int}
    (hF : ∀ r c, F r c = 0 ∨ F r c = 1) : cells01 (mkGrid rows cols F) := by
  intro row hrow
  simp only [mkGrid, List.mem_map, List.mem_range] at hrow
  obtain ⟨r, _, rfl⟩ := hrow
  intro v hv
  simp only [List.mem_map, List.mem_range] at hv
  obtain ⟨c, _, rfl⟩ := hv
  exact hF r c

lemma getCell_mkGrid {rows cols : Nat} (F : Nat → Nat → Int) {r c : Nat}
    (hr : r < rows) (hc : c < cols) :
    getCell (mkGrid rows cols F) r c = F r c := by
  unfold getCell mkGrid
  rw [List.getD_eq_getElem?_getD]
  simp [List.getElem?_map, List.getElem?_range, hr, hc, List.getD_eq_getElem?_getD]

/-- The pattern identifiers of the source's `AnimationPattern` union type. -/
inductive AnimationPattern where
  | gameOfLife
  | ripple
  | wave
  | rain
  | spiral
  | noise
  | rule30
  | image
deriving DecidableEq

/-- One active ripple emitter (`{centerRow, centerCol, radius, maxRadius}`).
The source stores `radius`/`maxRadius` as floating-point numbers; they are
embedded as rationals (`radius` only ever takes steps of `0.5`). -/
structure Ripple where
  centerRow : Nat
  centerCol : Nat
  radius : ℚ
  maxRadius : ℚ
deriving DecidableEq

/-- The loosely typed `patternState` bag.  The source step functions read
`state.ripples` (defaulting to `[]`) and `state.time` (defaulting to `0`)
and return fresh objects carrying only their own field, which is embedded
as both fields being optional. -/
structure PatternState where
  time : Option Nat
  ripples : Option (List Ripple)
deriving DecidableEq

/-- The empty bag `{}` that `startAnimation`/`changePattern` install. -/
def emptyPatternState : PatternState := ⟨none, none⟩

/-- Per-tick oracle for everything a step function obtains from
`Math.random()` and for the floating-point threshold tests of the wave and
spiral patterns (`sin`-based expressions compared against a constant),
which have no exact counterpart in the embedding.  The grid manipulation
around these inputs is embedded exactly. -/
structure Oracle where
  /-- `Math.random() < 0.05`: spawn a new ripple this tick. -/
  rippleSpawn : Bool
  /-- `Math.floor(Math.random() * rows)`: spawned ripple's center row. -/
  rippleRow : Nat
  /-- `Math.floor(Math.random() * cols)`: spawned ripple's center column. -/
  rippleCol : Nat
  /-- `Math.random() * 15 + 5`: spawned ripple's maximum radius. -/
  rippleMaxR : ℚ
  /-- `(sin(col*0.2 + time*0.1) + sin(row*0.3 + time*0.15)) / 2 > 0.3`,
  as a function of `time`, `row`, `col`. -/
  waveHit : Nat → Nat → Nat → Bool
  /-- `sin(angle*3 + distance*0.5 - time*0.2) > 0.5`, as a function of
  `time`, `row`, `col`. -/
  spiralHit : Nat → Nat → Nat → Bool
  /-- `Math.random() > 0.8`, drawn per cell. -/
  noiseHit : Nat → Nat → Bool
  /-- `Math.random() < 0.05`, drawn per top-row column. -/
  rainTop : Nat → Bool
  /-- `Math.random() < 0.3`, drawn per bottom-row column. -/
  rainBottom : Nat → Bool

/-- `createEmptyGrid`: `new Array(rows).fill(0).map(() => new Array(cols).fill(0))`. -/
def createEmptyGrid (rows cols : Nat) : Grid :=
  List.replicate rows (List.replicate cols 0)

/-- `createRandomGrid`: every cell independently `1` when its
`Math.random() > 0.7` draw (supplied as `rand`) fires, else `0`. -/
def createRandomGrid (rows cols : Nat) (rand : Nat → Nat → Bool) : Grid :=
  mkGrid rows cols fun r c => if rand r c then 1 else 0

/-- `countNeighbors`: sum the values of the up-to-8 neighbours of
`(row, col)` that lie inside the `rows × cols` bounds, walking the fixed
direction list. -/
def countNeighbors (rows cols : Nat) (g : Grid) (row col : Nat) : Int :=
  (([(-1, -1), (-1, 0), (-1, 1), (0, -1), (0, 1), (1, -1), (1, 0), (1, 1)] :
      List (Int × Int)).map fun d =>
    let newRow : Int := row + d.1
    let newCol : Int := col + d.2
    if 0 ≤ newRow ∧ newRow < rows ∧ 0 ≤ newCol ∧ newCol < cols then
      getCell g newRow.toNat newCol.toNat
    else 0).sum

/-- `gameOfLifeStep`: allocate a fresh empty grid, assign every cell from
the neighbour count of the old grid (live cell survives on 2 or 3
neighbours, dead cell is born on exactly 3), and accumulate `hasChanged`
over the cells that differ from the old grid. -/
def gameOfLifeStep (rows cols : Nat) (g : Grid) : Grid × Bool :=
  let newGrid := mkGrid rows cols fun row col =>
    let neighbors := countNeighbors rows cols g row col
    if getCell g row col = 1 then
      if neighbors = 2 ∨ neighbors = 3 then 1 else 0
    else
      if neighbors = 3 then 1 else 0
  let hasChanged := (List.range rows).any fun row =>
    (List.range cols).any fun col =>
      getCell newGrid row col != getCell g row col
  (newGrid, hasChanged)

/-- The source's ring test `Math.abs(sqrt((row-cR)^2 + (col-cC)^2) - radius) < 1`,
stated exactly over rationals: `|√d2 - radius| < 1` iff `√d2 < radius + 1`
and `radius - 1 < √d2`, squared where the sides are non-negative. -/
def ringHit (rp : Ripple) (row col : Nat) : Bool :=
  let d2 : ℚ := ((row : ℚ) - rp.centerRow) ^ 2 + ((col : ℚ) - rp.centerCol) ^ 2
  decide (0 < rp.radius + 1 ∧ d2 < (rp.radius + 1) ^ 2 ∧
    (rp.radius - 1 < 0 ∨ (rp.radius - 1) ^ 2 < d2))

/-- `rippleStep`: occasionally spawn an emitter, grow every emitter's
radius by `0.5`, drop emitters past their maximum radius, and draw the
surviving rings onto a fresh empty grid. -/
def rippleStep (rows cols : Nat) (o : Oracle) (g : Grid) (ps : PatternState) :
    Grid × Bool × Option PatternState :=
  let ripples := ps.ripples.getD []
  let withNew :=
    if o.rippleSpawn then
      ripples ++ [⟨o.rippleRow, o.rippleCol, 0, o.rippleMaxR⟩]
    else ripples
  let kept := (withNew.map fun rp => { rp with radius := rp.radius + 1/2 }).filter
    fun rp => rp.radius ≤ rp.maxRadius
  let newGrid := mkGrid rows cols fun row col =>
    if kept.any fun rp => ringHit rp row col then 1 else 0
  (newGrid, true, some ⟨none, some kept⟩)

/-- `waveStep`: threshold a two-sine interference expression (supplied by
the oracle) per cell onto a fresh grid and advance the `time` counter. -/
def waveStep (rows cols : Nat) (o : Oracle) (g : Grid) (ps : PatternState) :
    Grid × Bool × Option PatternState :=
  let time := ps.time.getD 0
  let newGrid := mkGrid rows cols fun row col =>
    if o.waveHit time row col then 1 else 0
  (newGrid, true, some ⟨some (time + 1), none⟩)

/-- `rainStep`: copy the grid, sprinkle new drops on the top row, shift
every live cell of the old grid one row down walking the rows bottom-up,
then randomly clear bottom-row cells. -/
def rainStep (rows cols : Nat) (o : Oracle) (g : Grid) : Grid × Bool :=
  let g1 := (List.range cols).foldl
    (fun acc col => if o.rainTop col then setCell acc 0 col 1 else acc) g
  let g2 := ((List.range (rows - 1)).reverse.map (· + 1)).foldl
    (fun acc row =>
      (List.range cols).foldl
        (fun acc2 col =>
          if getCell g (row - 1) col = 1 then
            setCell (setCell acc2 row col 1) (row - 1) col 0
          else acc2)
        acc)
    g1
  let g3 := (List.range cols).foldl
    (fun acc col => if o.rainBottom col then setCell acc (rows - 1) col 0 else acc) g2
  (g3, true)

/-- `spiralStep`: threshold a spiral expression (supplied by the oracle)
per cell onto a fresh grid and advance the `time` counter. -/
def spiralStep (rows cols : Nat) (o : Oracle) (g : Grid) (ps : PatternState) :
    Grid × Bool × Option PatternState :=
  let time := ps.time.getD 0
  let newGrid := mkGrid rows cols fun row col =>
    if o.spiralHit time row col then 1 else 0
  (newGrid, true, some ⟨some (time + 1), none⟩)

/-- `noiseStep`: every cell independently live on its fresh random draw. -/
def noiseStep (rows cols : Nat) (o : Oracle) (g : Grid) : Grid × Bool :=
  (mkGrid rows cols fun row col => if o.noiseHit row col then 1 else 0, true)

/-- The Rule 30 lookup table `[0, 1, 1, 1, 1, 0, 0, 0]`. -/
def rule30Table : List Int := [0, 1, 1, 1, 1, 0, 0, 0]

/-- `rule30Step`: copy the grid; for every interior column of the middle
row look up the old `(left, center, right)` triple in `rule30Table`
(the index `(left << 2) | (center << 1) | right` of the source equals
`4*left + 2*center + right` on the `{0,1}` cell values all claims range
over); then shift every other row one column right (walking columns
right-to-left, reading the old grid) and zero its column 0. -/
def rule30Step (rows cols : Nat) (g : Grid) : Grid :=
  let middleRow := rows / 2
  let g1 := (List.range cols).foldl
    (fun acc col =>
      if 1 ≤ col ∧ col + 1 < cols then
        let left := getCell g middleRow (col - 1)
        let center := getCell g middleRow col
        let right := getCell g middleRow (col + 1)
        setCell acc middleRow col
          (rule30Table.getD (4 * left + 2 * center + right).toNat 0)
      else acc)
    g
  (List.range rows).foldl
    (fun acc row =>
      if row ≠ middleRow then
        setCell
          (((List.range (cols - 1)).reverse.map (· + 1)).foldl
            (fun acc2 col => setCell acc2 row col (getCell g row (col - 1)))
            acc)
          row 0 0
      else acc)
    g1

/-- `executePattern`: dispatch on the pattern identifier; the `image`
identifier falls through to the default branch, returning the input grid
with `hasChanged = false` and no pattern state. -/
def executePattern (rows cols : Nat) (o : Oracle) (g : Grid)
    (p : AnimationPattern) (ps : PatternState) :
    Grid × Bool × Option PatternState :=
  match p with
  | .gameOfLife =>
    let r := gameOfLifeStep rows cols g
    (r.1, r.2, none)
  | .ripple => rippleStep rows cols o g ps
  | .wave => waveStep rows cols o g ps
  | .rain =>
    let r := rainStep rows cols o g
    (r.1, r.2, none)
  | .spiral => spiralStep rows cols o g ps
  | .noise =>
    let r := noiseStep rows cols o g
    (r.1, r.2, none)
  | .rule30 => (rule30Step rows cols g, true, none)
  | .image => (g, false, none)

/-- The configuration the hook receives: grid dimensions and the maximum
generation count (the step interval only gates real time between committed
ticks and plays no role in the state machine). -/
structure Config where
  rows : Nat
  cols : Nat
  maxGenerations : Nat

/-- The source's `AnimationState` record. -/
structure AnimationState where
  isRunning : Bool
  currentPattern : AnimationPattern
  generation : Nat
  patternState : PatternState
  activeLetterIndex : Option Nat
  baselineGrid : Option Grid
deriving DecidableEq

/-- The engine's full mutable state: the live `grid` React state plus the
`animationState` record. -/
structure EngineState where
  grid : Grid
  anim : AnimationState
deriving DecidableEq

/-- The synchronous notifications fired through the `onAnimationStart`,
`onPatternChange` and `onAnimationStop` callbacks. -/
inductive EngineEvent where
  | started (p : AnimationPattern)
  | patternChanged (p : AnimationPattern)
  | stopped
deriving DecidableEq

/-- `startAnimation(pattern, letterIndex)`: set the running flag and the
pattern, reset `generation` and `patternState`, record the trigger index,
and capture `baselineGrid` as a copy of the live grid only when no
baseline exists (`prev.baselineGrid || grid.map(row => [...row])`);
fires `onAnimationStart(pattern)`. -/
def startAnimation (p : AnimationPattern) (letterIndex : Nat)
    (s : EngineState) : EngineState × List EngineEvent :=
  ({ s with
      anim := { s.anim with
        isRunning := true
        currentPattern := p
        generation := 0
        patternState := emptyPatternState
        activeLetterIndex := some letterIndex
        baselineGrid :=
          match s.anim.baselineGrid with
          | some b => some b
          | none => some s.grid } },
   [.started p])

/-- `stopAnimation()`: restore the live grid from `baselineGrid` when one
is present (a deep copy in the source; plain value here), set
`isRunning := false` and clear `activeLetterIndex`; `baselineGrid` itself
is spread through unchanged.  Fires `onAnimationStop()`. -/
def stopAnimation (s : EngineState) : EngineState × List EngineEvent :=
  let grid' :=
    match s.anim.baselineGrid with
    | some b => b
    | none => s.grid
  ({ grid := grid'
     anim := { s.anim with isRunning := false, activeLetterIndex := none } },
   [.stopped])

/-- `changePattern(pattern)`: install the pattern, reset `generation` and
`patternState`, and re-seed the live grid (random grid for Game of Life
and Noise, empty grid with one live center cell for Rule 30, empty grid
otherwise).  Fires `onPatternChange(pattern)`. -/
def changePattern (cfg : Config) (p : AnimationPattern)
    (rand : Nat → Nat → Bool) (s : EngineState) :
    EngineState × List EngineEvent :=
  let grid' :=
    if p = .gameOfLife ∨ p = .noise then
      createRandomGrid cfg.rows cfg.cols rand
    else if p = .rule30 then
      setCell (createEmptyGrid cfg.rows cfg.cols) (cfg.rows / 2) (cfg.cols / 2) 1
    else
      createEmptyGrid cfg.rows cfg.cols
  ({ grid := grid'
     anim := { s.anim with
       currentPattern := p
       generation := 0
       patternState := emptyPatternState } },
   [.patternChanged p])

/-- `resetGrid()`: stop, reset `generation` and `patternState`, clear the
trigger index, and install an empty live grid; `baselineGrid` untouched,
no notification. -/
def resetGrid (cfg : Config) (s : EngineState) :
    EngineState × List EngineEvent :=
  ({ grid := createEmptyGrid cfg.rows cfg.cols
     anim := { s.anim with
       isRunning := false
       generation := 0
       patternState := emptyPatternState
       activeLetterIndex := none } },
   [])

/-- `randomizeGrid()`: like `resetGrid` but installs a random live grid. -/
def randomizeGrid (cfg : Config) (rand : Nat → Nat → Bool)
    (s : EngineState) : EngineState × List EngineEvent :=
  ({ grid := createRandomGrid cfg.rows cfg.cols rand
     anim := { s.anim with
       isRunning := false
       generation := 0
       patternState := emptyPatternState
       activeLetterIndex := none } },
   [])

/-- One committing tick of the `animate` loop (the body guarded by
`elapsed > animationSpeed`): when running, run the current pattern's step
against the live grid first, then check the stopping conditions before
committing.  On Game-of-Life stabilization (`!hasChanged`) or once
`generation >= maxGenerations`, keep the grid as it is this tick, clear
only `isRunning`, and fire `onAnimationStop()`; otherwise commit the new
grid, bump `generation`, and merge the returned pattern state
(`patternState ?? prevState.patternState`). -/
def animate (cfg : Config) (o : Oracle) (s : EngineState) :
    EngineState × List EngineEvent :=
  if s.anim.isRunning = false then (s, [])
  else
    let r := executePattern cfg.rows cfg.cols o s.grid
      s.anim.currentPattern s.anim.patternState
    if s.anim.currentPattern = .gameOfLife ∧ r.2.1 = false then
      ({ s with anim := { s.anim with isRunning := false } }, [.stopped])
    else if cfg.maxGenerations ≤ s.anim.generation then
      ({ s with anim := { s.anim with isRunning := false } }, [.stopped])
    else
      ({ grid := r.1
         anim := { s.anim with
           generation := s.anim.generation + 1
           patternState := r.2.2.getD s.anim.patternState } },
       [])

/-- A public engine operation or a committing scheduler tick. -/
inductive EngineOp where
  | start (p : AnimationPattern) (letterIndex : Nat)
  | stop
  | change (p : AnimationPattern) (rand : Nat → Nat → Bool)
  | reset
  | randomize (rand : Nat → Nat → Bool)
  | tick (o : Oracle)

/-- Apply one operation, discarding the fired notifications. -/
def applyOp (cfg : Config) (s : EngineState) : EngineOp → EngineState
  | .start p i => (startAnimation p i s).1
  | .stop => (stopAnimation s).1
  | .change p rand => (changePattern cfg p rand s).1
  | .reset => (resetGrid cfg s).1
  | .randomize rand => (randomizeGrid cfg rand s).1
  | .tick o => (animate cfg o s).1

/-- Run a sequence of operations. -/
def runOps (cfg : Config) (s : EngineState) (ops : List EngineOp) : EngineState :=
  ops.foldl (applyOp cfg) s

/-- The state the hook is created with: an all-zero live grid,
`isRunning = false`, pattern `gameOfLife`, `generation = 0`, empty
pattern state, no trigger index, no baseline. -/
def initEngine (cfg : Config) : EngineState :=
  { grid := createEmptyGrid cfg.rows cfg.cols
    anim := { isRunning := false
              currentPattern := .gameOfLife
              generation := 0
              patternState := emptyPatternState
              activeLetterIndex := none
              baselineGrid := none } }

/-- The operations a run may interleave between `start` and `stop`:
committing animation ticks and `changePattern` calls. -/
inductive RunOp where
  | step (o : Oracle)
  | change (p : AnimationPattern) (rand : Nat → Nat → Bool)

/-- Apply one mid-run operation. -/
def applyRunOp (cfg : Config) (s : EngineState) : RunOp → EngineState
  | .step o => (animate cfg o s).1
  | .change p rand => (changePattern cfg p rand s).1

/-- Run a sequence of mid-run operations. -/
def runMid (cfg : Config) (s : EngineState) (ops : List RunOp) : EngineState :=
  ops.foldl (applyRunOp cfg) s

/-- Constructing the engine's initial live grid,
`new Array(rows).fill(0).map(() => new Array(cols).fill(0))`, over
integer inputs.  `new Array(n)` throws a `RangeError` for a negative
length, so construction fails for `rows < 0`, and for `cols < 0` whenever
at least one row is built; otherwise it yields the `rows × cols` zero
grid.  No other validation of the configuration exists anywhere in the
source. -/
def constructGrid (rows cols : Int) : Except String Grid :=
  if rows < 0 then .error "RangeError: invalid array length"
  else if 0 < rows ∧ cols < 0 then .error "RangeError: invalid array length"
  else .ok (List.replicate rows.toNat (List.replicate cols.toNat 0))

/-- An oracle whose every random draw fails and whose threshold tests are
all false; used to evaluate the deterministic part of the steps. -/
def oracleFalse : Oracle :=
  { rippleSpawn := false
    rippleRow := 0
    rippleCol := 0
    rippleMaxR := 0
    waveHit := fun _ _ _ => false
    spiralHit := fun _ _ _ => false
    noiseHit := fun _ _ => false
    rainTop := fun _ => false
    rainBottom := fun _ => false }

lemma wf01_setCell {rows cols : Nat} {g : Grid}
    (h : wellFormed rows cols g ∧ cells01 g) (r c : Nat) {v : Int}
    (hv : v = 0 ∨ v = 1) :
    wellFormed rows cols (setCell g r c v) ∧ cells01 (setCell g r c v) :=
  ⟨wellFormed_setCell h.1 r c v, cells01_setCell h.2 hv r c⟩

lemma wf01_mkGrid (rows cols : Nat) {F : Nat → Nat → Int}
    (hF : ∀ r c, F r c = 0 ∨ F r c = 1) :
    wellFormed rows cols (mkGrid rows cols F) ∧ cells01 (mkGrid rows cols F) :=
  ⟨wellFormed_mkGrid rows cols F, cells01_mkGrid rows cols hF⟩

lemma if01 (b : Bool) : (if b = true then (1 : Int) else 0) = 0 ∨
    (if b = true then (1 : Int) else 0) = 1 := by
  cases b <;> simp

lemma rule30Table_getD01 (n : Nat) :
    rule30Table.getD n 0 = 0 ∨ rule30Table.getD n 0 = 1 := by
  by_cases h : n < 8
  · interval_cases n <;> simp [rule30Table]
  · left
    apply getD_of_le
    simp only [rule30Table, List.length_cons, List.length_nil]
    omega

lemma rainStep_wf01 (rows cols : Nat) (o : Oracle) (g : Grid)
    (h : wellFormed rows cols g ∧ cells01 g) :
    wellFormed rows cols (rainStep rows cols o g).1 ∧
    cells01 (rainStep rows cols o g).1 := by
  unfold rainStep
  dsimp only
  apply foldl_preserve (P := fun gr => wellFormed rows cols gr ∧ cells01 gr)
  · intro g' col hg'
    split
    · exact wf01_setCell hg' _ _ (Or.inl rfl)
    · exact hg'
  apply foldl_preserve (P := fun gr => wellFormed rows cols gr ∧ cells01 gr)
  · intro g' row hg'
    apply foldl_preserve (P := fun gr => wellFormed rows cols gr ∧ cells01 gr)
    · intro g2 col hg2
      split
      · exact wf01_setCell (wf01_setCell hg2 _ _ (Or.inr rfl)) _ _ (Or.inl rfl)
      · exact hg2
    · exact hg'
  apply foldl_preserve (P := fun gr => wellFormed rows cols gr ∧ cells01 gr)
  · intro g' col hg'
    split
    · exact wf01_setCell hg' _ _ (Or.inr rfl)
    · exact hg'
  exact h

lemma rule30Step_wf01 (rows cols : Nat) (g : Grid)
    (h : wellFormed rows cols g ∧ cells01 g) :
    wellFormed rows cols (rule30Step rows cols g) ∧
    cells01 (rule30Step rows cols g) := by
  unfold rule30Step
  dsimp only
  apply foldl_preserve (P := fun gr => wellFormed rows cols gr ∧ cells01 gr)
  · intro g' row hg'
    split
    · apply wf01_setCell _ _ _ (Or.inl rfl)
      apply foldl_preserve (P := fun gr => wellFormed rows cols gr ∧ cells01 gr)
      · intro g2 col hg2
        exact wf01_setCell hg2 _ _ (cells01_getCell h.2 _ _)
      · exact hg'
    · exact hg'
  apply foldl_preserve (P := fun gr => wellFormed rows cols gr ∧ cells01 gr)
  · intro g' col hg'
    split
    · exact wf01_setCell hg' _ _ (rule30Table_getD01 _)
    · exact hg'
  exact h

lemma gameOfLifeStep_wf01 (rows cols : Nat) (g : Grid) :
    wellFormed rows cols (gameOfLifeStep rows cols g).1 ∧
    cells01 (gameOfLifeStep rows cols g).1 := by
  unfold gameOfLifeStep
  dsimp only
  apply wf01_mkGrid
  intro r c
  dsimp only
  split
  · split <;> simp
  · split <;> simp

/-- C9: over every well-formed grid of arbitrary integer cells — not only
cells in `{0,1}` — `gameOfLifeStep` is total and yields a grid of exactly
`rows × cols` dimensions whose every cell is `0` or `1`. -/
theorem gameOfLifeStep_total_range (rows cols : Nat) (g : Grid)
    (hwf : wellFormed rows cols g) :
    wellFormed rows cols (gameOfLifeStep rows cols g).1 ∧
    cells01 (gameOfLifeStep rows cols g).1 :=
  gameOfLifeStep_wf01 rows cols g

/-- Witness for `gameOfLifeStep_total_range` at a concrete grid with a
cell outside `{0,1}`. -/
theorem gameOfLifeStep_total_range_witness :
    wellFormed 2 2 [[5, -3], [0, 7]] ∧
    (wellFormed 2 2 (gameOfLifeStep 2 2 [[5, -3], [0, 7]]).1 ∧
      cells01 (gameOfLifeStep 2 2 [[5, -3], [0, 7]]).1) :=
  ⟨by decide, gameOfLifeStep_total_range 2 2 [[5, -3], [0, 7]] (by decide)⟩

/-- C3 counterexample: on integer grids that are not `{0,1}`-valued the
claim fails — the rain step copies the current grid, so the cell value `5`
survives one `rain` step of the `2 × 1` grid `[[5], [0]]` unchanged. -/
theorem nonGolStep_range_cex :
    ¬(getCell (executePattern 2 1 oracleFalse [[5], [0]]
          AnimationPattern.rain emptyPatternState).1 0 0 = 0 ∨
      getCell (executePattern 2 1 oracleFalse [[5], [0]]
          AnimationPattern.rain emptyPatternState).1 0 0 = 1) := by
  decide

/-- C3 (amended): for every non-empty well-formed `rows × cols` grid with
cells in `{0,1}` and every pattern other than Game of Life and `image`,
one step yields a grid of (at least) the same `rows × cols` dimensions
with every cell in `{0,1}`. -/
theorem nonGolStep_dims_range (rows cols : Nat) (o : Oracle) (g : Grid)
    (ps : PatternState) (p : AnimationPattern)
    (hp : p ∈ [AnimationPattern.ripple, AnimationPattern.wave,
      AnimationPattern.rain, AnimationPattern.spiral,
      AnimationPattern.noise, AnimationPattern.rule30])
    (hrows : 1 ≤ rows) (hwf : wellFormed rows cols g) (h01 : cells01 g) :
    wellFormed rows cols (executePattern rows cols o g p ps).1 ∧
    cells01 (executePattern rows cols o g p ps).1 := by
  fin_cases hp
  · exact wf01_mkGrid rows cols fun r c => if01 _
  · exact wf01_mkGrid rows cols fun r c => if01 _
  · exact rainStep_wf01 rows cols o g ⟨hwf, h01⟩
  · exact wf01_mkGrid rows cols fun r c => if01 _
  · exact wf01_mkGrid rows cols fun r c => if01 _
  · exact rule30Step_wf01 rows cols g ⟨hwf, h01⟩

/-- Witness for `nonGolStep_dims_range` at the rain pattern on a concrete
`{0,1}` grid. -/
theorem nonGolStep_dims_range_witness :
    (1 ≤ 2 ∧ wellFormed 2 2 [[1, 0], [0, 1]] ∧ cells01 [[1, 0], [0, 1]]) ∧
    (wellFormed 2 2 (executePattern 2 2 oracleFalse [[1, 0], [0, 1]]
        AnimationPattern.rain emptyPatternState).1 ∧
      cells01 (executePattern 2 2 oracleFalse [[1, 0], [0, 1]]
        AnimationPattern.rain emptyPatternState).1) :=
  ⟨⟨by decide, by decide, by decide⟩,
    nonGolStep_dims_range 2 2 oracleFalse [[1, 0], [0, 1]] emptyPatternState
      AnimationPattern.rain (by simp) (by decide) (by decide) (by decide)⟩

/-- The eight neighbour offsets, as a set — the spec's "the 8 neighbors". -/
def neighborOffsets : Finset (Int × Int) :=
  {(-1, -1), (-1, 0), (-1, 1), (0, -1), (0, 1), (1, -1), (1, 0), (1, 1)}

/-- Neighbour count as the spec words it: sum, over the set of the eight
offsets, of the cell value when the offset lands in bounds and `0` (no
wraparound) otherwise. -/
def specNeighborCount (rows cols : Nat) (g : Grid) (row col : Nat) : Int :=
  Finset.sum neighborOffsets fun d =>
    if 0 ≤ (row : Int) + d.1 ∧ (row : Int) + d.1 < rows ∧
        0 ≤ (col : Int) + d.2 ∧ (col : Int) + d.2 < cols then
      getCell g ((row : Int) + d.1).toNat ((col : Int) + d.2).toNat
    else 0

lemma countNeighbors_eq_spec (rows cols : Nat) (g : Grid) (row col : Nat) :
    countNeighbors rows cols g row col = specNeighborCount rows cols g row col := by
  unfold countNeighbors specNeighborCount neighborOffsets
  rw [Finset.sum_insert (by decide), Finset.sum_insert (by decide),
    Finset.sum_insert (by decide), Finset.sum_insert (by decide),
    Finset.sum_insert (by decide), Finset.sum_insert (by decide),
    Finset.sum_insert (by decide), Finset.sum_singleton]
  simp [add_assoc]

/-- C4: each output cell of `gameOfLifeStep` follows the classic rule over
the in-bounds neighbour count (live survives on exactly 2 or 3, dead is
born on exactly 3), and the returned flag is true iff some cell of the
output differs from the input. -/
theorem gameOfLifeStep_rule (rows cols : Nat) (g : Grid)
    (hwf : wellFormed rows cols g) (h01 : cells01 g) :
    (∀ r c, r < rows → c < cols →
      getCell (gameOfLifeStep rows cols g).1 r c =
        if getCell g r c = 1 then
          if specNeighborCount rows cols g r c = 2 ∨
              specNeighborCount rows cols g r c = 3 then 1 else 0
        else
          if specNeighborCount rows cols g r c = 3 then 1 else 0) ∧
    ((gameOfLifeStep rows cols g).2 = true ↔
      ∃ r < rows, ∃ c < cols,
        getCell (gameOfLifeStep rows cols g).1 r c ≠ getCell g r c) := by
  constructor
  · intro r c hr hc
    show getCell (mkGrid rows cols _) r c = _
    rw [getCell_mkGrid _ hr hc, countNeighbors_eq_spec]
  · show (List.range rows).any _ = true ↔ _
    rw [List.any_eq_true]
    constructor
    · rintro ⟨r, hr, hany⟩
      rw [List.any_eq_true] at hany
      obtain ⟨c, hc, hne⟩ := hany
      exact ⟨r, List.mem_range.mp hr, c, List.mem_range.mp hc,
        by simpa using hne⟩
    · rintro ⟨r, hr, c, hc, hne⟩
      exact ⟨r, List.mem_range.mpr hr,
        List.any_eq_true.mpr ⟨c, List.mem_range.mpr hc, by simpa using hne⟩⟩

/-- Witness for `gameOfLifeStep_rule` on the `5 × 5` horizontal blinker. -/
theorem gameOfLifeStep_rule_witness :
    (wellFormed 5 5 [[0,0,0,0,0],[0,0,0,0,0],[0,1,1,1,0],[0,0,0,0,0],[0,0,0,0,0]] ∧
      cells01 [[0,0,0,0,0],[0,0,0,0,0],[0,1,1,1,0],[0,0,0,0,0],[0,0,0,0,0]]) ∧
    ((gameOfLifeStep 5 5
        [[0,0,0,0,0],[0,0,0,0,0],[0,1,1,1,0],[0,0,0,0,0],[0,0,0,0,0]]).2 = true ↔
      ∃ r < 5, ∃ c < 5,
        getCell (gameOfLifeStep 5 5
          [[0,0,0,0,0],[0,0,0,0,0],[0,1,1,1,0],[0,0,0,0,0],[0,0,0,0,0]]).1 r c ≠
        getCell [[0,0,0,0,0],[0,0,0,0,0],[0,1,1,1,0],[0,0,0,0,0],[0,0,0,0,0]] r c) :=
  ⟨⟨by decide, by decide⟩,
    (gameOfLifeStep_rule 5 5
      [[0,0,0,0,0],[0,0,0,0,0],[0,1,1,1,0],[0,0,0,0,0],[0,0,0,0,0]]
      (by decide) (by decide)).2⟩

lemma foldl_char_row {rows cols : Nat} (f : Grid → Nat → Grid) (row : Nat)
    (val : Nat → Int) (guard : Nat → Prop) [DecidablePred guard]
    (hfwf : ∀ a c, wellFormed rows cols a → wellFormed rows cols (f a c))
    (hget : ∀ a c, c < cols → wellFormed rows cols a →
      ∀ r' c', r' < rows → c' < cols →
      getCell (f a c) r' c' =
        if r' = row ∧ c' = c ∧ guard c then val c else getCell a r' c') :
    ∀ (l : List Nat), (∀ x ∈ l, x < cols) → ∀ (acc : Grid),
      wellFormed rows cols acc →
      ∀ r' c', r' < rows → c' < cols →
        getCell (l.foldl f acc) r' c' =
          if r' = row ∧ c' ∈ l ∧ guard c' then val c' else getCell acc r' c' := by
  intro l
  induction l with
  | nil =>
    intro _ acc hacc r' c' hr' hc'
    simp
  | cons c0 l ih =>
    intro hl acc hacc r' c' hr' hc'
    rw [List.foldl_cons,
      ih (fun x hx => hl x (List.mem_cons_of_mem _ hx)) _ (hfwf acc c0 hacc)
        r' c' hr' hc',
      hget acc c0 (hl c0 (List.mem_cons_self _ _)) hacc r' c' hr' hc']
    by_cases h1 : r' = row ∧ c' ∈ l ∧ guard c'
    · rw [if_pos h1, if_pos ⟨h1.1, List.mem_cons_of_mem _ h1.2.1, h1.2.2⟩]
    · rw [if_neg h1]
      by_cases h2 : r' = row ∧ c' = c0 ∧ guard c0
      · rw [if_pos h2, if_pos ⟨h2.1, h2.2.1 ▸ List.mem_cons_self _ _,
          h2.2.1 ▸ h2.2.2⟩, h2.2.1]
      · rw [if_neg h2, if_neg]
        rintro ⟨hre, hmem, hg⟩
        rcases List.mem_cons.mp hmem with hce | hmem'
        · exact h2 ⟨hre, hce, hce ▸ hg⟩
        · exact h1 ⟨hre, hmem', hg⟩

lemma foldl_char_rows {rows cols : Nat} (f : Grid → Nat → Grid)
    (rowVal : Nat → Nat → Int) (rguard : Nat → Prop) [DecidablePred rguard]
    (hfwf : ∀ a r, wellFormed rows cols a → wellFormed rows cols (f a r))
    (hget : ∀ a r, r < rows → wellFormed rows cols a →
      ∀ r' c', r' < rows → c' < cols →
      getCell (f a r) r' c' =
        if r' = r ∧ rguard r then rowVal r c' else getCell a r' c') :
    ∀ (l : List Nat), (∀ x ∈ l, x < rows) → ∀ (acc : Grid),
      wellFormed rows cols acc →
      ∀ r' c', r' < rows → c' < cols →
        getCell (l.foldl f acc) r' c' =
          if r' ∈ l ∧ rguard r' then rowVal r' c' else getCell acc r' c' := by
  intro l
  induction l with
  | nil =>
    intro _ acc hacc r' c' hr' hc'
    simp
  | cons r0 l ih =>
    intro hl acc hacc r' c' hr' hc'
    rw [List.foldl_cons,
      ih (fun x hx => hl x (List.mem_cons_of_mem _ hx)) _ (hfwf acc r0 hacc)
        r' c' hr' hc',
      hget acc r0 (hl r0 (List.mem_cons_self _ _)) hacc r' c' hr' hc']
    by_cases h1 : r' ∈ l ∧ rguard r'
    · rw [if_pos h1, if_pos ⟨List.mem_cons_of_mem _ h1.1, h1.2⟩]
    · rw [if_neg h1]
      by_cases h2 : r' = r0 ∧ rguard r0
      · rw [if_pos h2, if_pos ⟨h2.1 ▸ List.mem_cons_self _ _, h2.1 ▸ h2.2⟩,
          h2.1]
      · rw [if_neg h2, if_neg]
        rintro ⟨hmem, hg⟩
        rcases List.mem_cons.mp hmem with hre | hmem'
        · exact h2 ⟨hre, hre ▸ hg⟩
        · exact h1 ⟨hmem', hg⟩

lemma mem_descCols {n c : Nat} :
    c ∈ (List.range (n - 1)).reverse.map (· + 1) ↔ 1 ≤ c ∧ c < n := by
  simp only [List.mem_map, List.mem_reverse, List.mem_range]
  constructor
  · rintro ⟨i, hi, rfl⟩
    omega
  · rintro ⟨h1, h2⟩
    exact ⟨c - 1, by omega, by omega⟩

lemma getCell_setCell_cases {rows cols : Nat} {a : Grid}
    (ha : wellFormed rows cols a) {r c : Nat} (hr : r < rows) (hc : c < cols)
    (v : Int) {r' c' : Nat} :
    getCell (setCell a r c v) r' c' =
      if r' = r ∧ c' = c then v else getCell a r' c' := by
  by_cases h : r' = r ∧ c' = c
  · obtain ⟨rfl, rfl⟩ := h
    rw [if_pos ⟨rfl, rfl⟩, getCell_setCell_self ha hr hc]
  · rw [if_neg h, getCell_setCell_ne _ v]
    tauto

lemma rule30Step_getCell {rows cols : Nat} (g : Grid)
    (hrows : 1 ≤ rows) (hwf : wellFormed rows cols g) :
    ∀ r c, r < rows → c < cols →
      getCell (rule30Step rows cols g) r c =
        if r = rows / 2 then
          if 1 ≤ c ∧ c + 1 < cols then
            rule30Table.getD
              (4 * getCell g (rows / 2) (c - 1) + 2 * getCell g (rows / 2) c +
                getCell g (rows / 2) (c + 1)).toNat 0
          else getCell g r c
        else
          if c = 0 then 0 else getCell g r (c - 1) := by
  intro r c hr hc
  have hmr : rows / 2 < rows := Nat.div_lt_self (by omega) (by omega)
  show getCell
    ((List.range rows).foldl
      (fun acc row =>
        if row ≠ rows / 2 then
          setCell
            (((List.range (cols - 1)).reverse.map (· + 1)).foldl
              (fun acc2 col => setCell acc2 row col (getCell g row (col - 1)))
              acc)
            row 0 0
        else acc)
      ((List.range cols).foldl
        (fun acc col =>
          if 1 ≤ col ∧ col + 1 < cols then
            setCell acc (rows / 2) col
              (rule30Table.getD
                (4 * getCell g (rows / 2) (col - 1) +
                  2 * getCell g (rows / 2) col +
                  getCell g (rows / 2) (col + 1)).toNat 0)
          else acc)
        g)) r c = _
  have hwf1 : wellFormed rows cols
      ((List.range cols).foldl
        (fun acc col =>
          if 1 ≤ col ∧ col + 1 < cols then
            setCell acc (rows / 2) col
              (rule30Table.getD
                (4 * getCell g (rows / 2) (col - 1) +
                  2 * getCell g (rows / 2) col +
                  getCell g (rows / 2) (col + 1)).toNat 0)
          else acc)
        g) := by
    apply foldl_preserve (P := wellFormed rows cols)
    · intro a col ha
      split
      · exact wellFormed_setCell ha _ _ _
      · exact ha
    · exact hwf
  rw [foldl_char_rows
    (fun acc row =>
      if row ≠ rows / 2 then
        setCell
          (((List.range (cols - 1)).reverse.map (· + 1)).foldl
            (fun acc2 col => setCell acc2 row col (getCell g row (col - 1)))
            acc)
          row 0 0
      else acc)
    (fun row c' => if c' = 0 then 0 else getCell g row (c' - 1))
    (fun row => row ≠ rows / 2)
    (by
      intro a row ha
      dsimp only
      split
      · apply wellFormed_setCell _ _ _ _
        apply foldl_preserve (P := wellFormed rows cols)
        · intro a2 col ha2
          exact wellFormed_setCell ha2 _ _ _
        · exact ha
      · exact ha)
    (by
      intro a row hrow ha r' c' hr' hc'
      dsimp only
      by_cases hg : row ≠ rows / 2
      · rw [if_pos hg]
        have hwfX : wellFormed rows cols
            (((List.range (cols - 1)).reverse.map (· + 1)).foldl
              (fun acc2 col => setCell acc2 row col (getCell g row (col - 1)))
              a) := by
          apply foldl_preserve (P := wellFormed rows cols)
          · intro a2 col ha2
            exact wellFormed_setCell ha2 _ _ _
          · exact ha
        rw [getCell_setCell_cases hwfX hrow (by omega) 0]
        rw [foldl_char_row
          (fun acc2 col => setCell acc2 row col (getCell g row (col - 1)))
          row (fun col => getCell g row (col - 1)) (fun _ => True)
          (by
            intro a2 col ha2
            exact wellFormed_setCell ha2 _ _ _)
          (by
            intro a2 col hcol ha2 r2 c2 hr2 hc2
            dsimp only
            rw [getCell_setCell_cases ha2 hrow hcol _]
            by_cases hx : r2 = row ∧ c2 = col
            · rw [if_pos hx, if_pos ⟨hx.1, hx.2, trivial⟩]
            · rw [if_neg hx, if_neg (by tauto)])
          ((List.range (cols - 1)).reverse.map (· + 1))
          (fun x hx => (mem_descCols.mp hx).2) a ha r' c' hr' hc']
        by_cases hz : r' = row ∧ c' = 0
        · rw [if_pos hz, if_pos ⟨hz.1, hg⟩, if_pos hz.2]
        · rw [if_neg hz]
          by_cases hmem : r' = row ∧ c' ∈ (List.range (cols - 1)).reverse.map (· + 1) ∧ True
          · rw [if_pos hmem, if_pos ⟨hmem.1, hg⟩]
            have h1c : 1 ≤ c' := (mem_descCols.mp hmem.2.1).1
            rw [if_neg (by omega)]
          · rw [if_neg hmem, if_neg]
            rintro ⟨hre, _⟩
            rcases Nat.eq_zero_or_pos c' with hc0 | hc0
            · exact hz ⟨hre, hc0⟩
            · exact hmem ⟨hre, mem_descCols.mpr ⟨hc0, hc'⟩, trivial⟩
      · rw [if_neg hg, if_neg (by tauto)])
    (List.range rows) (fun x hx => List.mem_range.mp hx) _ hwf1 r c hr hc]
  rw [foldl_char_row
    (fun acc col =>
      if 1 ≤ col ∧ col + 1 < cols then
        setCell acc (rows / 2) col
          (rule30Table.getD
            (4 * getCell g (rows / 2) (col - 1) +
              2 * getCell g (rows / 2) col +
              getCell g (rows / 2) (col + 1)).toNat 0)
      else acc)
    (rows / 2)
    (fun col =>
      rule30Table.getD
        (4 * getCell g (rows / 2) (col - 1) + 2 * getCell g (rows / 2) col +
          getCell g (rows / 2) (col + 1)).toNat 0)
    (fun col => 1 ≤ col ∧ col + 1 < cols)
    (by
      intro a col ha
      dsimp only
      split
      · exact wellFormed_setCell ha _ _ _
      · exact ha)
    (by
      intro a col hcol ha r2 c2 hr2 hc2
      dsimp only
      by_cases hg : 1 ≤ col ∧ col + 1 < cols
      · rw [if_pos hg, getCell_setCell_cases ha hmr hcol _]
        by_cases hx : r2 = rows / 2 ∧ c2 = col
        · rw [if_pos hx, if_pos ⟨hx.1, hx.2, hx.2 ▸ hg⟩]
        · rw [if_neg hx, if_neg (by tauto)]
      · rw [if_neg hg, if_neg (by rintro ⟨_, rfl, hgg⟩; exact hg hgg)])
    (List.range cols) (fun x hx => List.mem_range.mp hx) g hwf r c hr hc]
  by_cases hrm : r = rows / 2
  · subst hrm
    rw [if_neg (by simp), if_pos rfl]
    by_cases hc1 : 1 ≤ c ∧ c + 1 < cols
    · rw [if_pos ⟨rfl, List.mem_range.mpr hc, hc1⟩, if_pos hc1]
    · rw [if_neg (by tauto), if_neg hc1]
  · rw [if_pos ⟨List.mem_range.mpr hr, hrm⟩, if_neg hrm]

/-- The `7 × 53` grid that `changePattern('rule30')` seeds: empty except
for one live cell at the exact center `(3, 26)`. -/
def rule30SeedGrid : Grid := setCell (createEmptyGrid 7 53) 3 26 1

/-- The canonical first Rule 30 generation of the single-center seed:
exactly the three live cells at columns 25, 26, 27 of the middle row. -/
def rule30SeedNext : Grid :=
  mkGrid 7 53 fun r c => if r = 3 ∧ (c = 25 ∨ c = 26 ∨ c = 27) then 1 else 0

set_option maxRecDepth 10000 in
/-- C7: one Rule 30 step sets each interior column of the middle row to
the table `[0,1,1,1,1,0,0,0]` indexed by `left*4 + center*2 + right` of
the old middle row, leaves the two edge columns of the middle row
unchanged, and shifts every other row one column right with column 0
zeroed; and on the single-center-cell seed it produces exactly the three
live cells `0,1,1,1,0` centred at the same column of the middle row. -/
theorem rule30Step_spec :
    (∀ rows cols (g : Grid), 1 ≤ rows → 1 ≤ cols → wellFormed rows cols g →
      cells01 g →
      (∀ c, 1 ≤ c → c + 1 < cols →
        getCell (rule30Step rows cols g) (rows / 2) c =
          rule30Table.getD
            (4 * getCell g (rows / 2) (c - 1) + 2 * getCell g (rows / 2) c +
              getCell g (rows / 2) (c + 1)).toNat 0) ∧
      (∀ c, c < cols → c = 0 ∨ c + 1 = cols →
        getCell (rule30Step rows cols g) (rows / 2) c =
          getCell g (rows / 2) c) ∧
      (∀ r, r < rows → r ≠ rows / 2 →
        getCell (rule30Step rows cols g) r 0 = 0 ∧
        (∀ c, 1 ≤ c → c < cols →
          getCell (rule30Step rows cols g) r c = getCell g r (c - 1)))) ∧
    rule30Step 7 53 rule30SeedGrid = rule30SeedNext := by
  constructor
  · intro rows cols g hrows hcols hwf h01
    have hchar := rule30Step_getCell g hrows hwf
    have hmr : rows / 2 < rows := Nat.div_lt_self (by omega) (by omega)
    refine ⟨?_, ?_, ?_⟩
    · intro c h1 h2
      rw [hchar _ _ hmr (by omega), if_pos rfl, if_pos ⟨h1, h2⟩]
    · intro c hc hedge
      rw [hchar _ _ hmr hc, if_pos rfl, if_neg (by omega)]
    · intro r hr hne
      constructor
      · rw [hchar r 0 hr (by omega), if_neg hne, if_pos rfl]
      · intro c h1 h2
        rw [hchar r c hr h2, if_neg hne, if_neg (by omega)]
  · decide

/-- Witness for `rule30Step_spec` on a `3 × 5` single-center grid. -/
theorem rule30Step_spec_witness :
    (1 ≤ 3 ∧ 1 ≤ 5 ∧ wellFormed 3 5 [[0,0,0,0,0],[0,0,1,0,0],[0,0,0,0,0]] ∧
      cells01 [[0,0,0,0,0],[0,0,1,0,0],[0,0,0,0,0]]) ∧
    getCell (rule30Step 3 5 [[0,0,0,0,0],[0,0,1,0,0],[0,0,0,0,0]]) (3 / 2) 1 =
      rule30Table.getD
        (4 * getCell [[0,0,0,0,0],[0,0,1,0,0],[0,0,0,0,0]] (3 / 2) 0 +
          2 * getCell [[0,0,0,0,0],[0,0,1,0,0],[0,0,0,0,0]] (3 / 2) 1 +
          getCell [[0,0,0,0,0],[0,0,1,0,0],[0,0,0,0,0]] (3 / 2) 2).toNat 0 :=
  ⟨⟨by decide, by decide, by decide, by decide⟩,
    (rule30Step_spec.1 3 5 [[0,0,0,0,0],[0,0,1,0,0],[0,0,0,0,0]]
      (by decide) (by decide) (by decide) (by decide)).1 1
      (by decide) (by decide)⟩

lemma animate_baseline (cfg : Config) (o : Oracle) (s : EngineState) :
    (animate cfg o s).1.anim.baselineGrid = s.anim.baselineGrid := by
  unfold animate
  dsimp only
  split_ifs <;> rfl

lemma runMid_baseline (cfg : Config) :
    ∀ (ops : List RunOp) (s : EngineState),
      (runMid cfg s ops).anim.baselineGrid = s.anim.baselineGrid := by
  intro ops
  induction ops with
  | nil => intro s; rfl
  | cons op ops ih =>
    intro s
    show (runMid cfg (applyRunOp cfg s op) ops).anim.baselineGrid = _
    rw [ih]
    cases op with
    | step o => exact animate_baseline cfg o s
    | change p rand => rfl

/-- C1: starting from a state with no baseline, `start(P, i)` followed by
any number of committed animation ticks and `changePattern` calls and then
`stop()` leaves the live grid equal to the grid that existed immediately
before `start`: `start` captures the baseline only because none exists,
no mid-run operation touches it, and `stop` restores it. -/
theorem start_stop_roundtrip (cfg : Config) (s : EngineState)
    (hb : s.anim.baselineGrid = none) (p : AnimationPattern) (i : Nat)
    (ops : List RunOp) :
    (stopAnimation (runMid cfg (startAnimation p i s).1 ops)).1.grid =
      s.grid := by
  have h1 : (startAnimation p i s).1.anim.baselineGrid = some s.grid := by
    simp [startAnimation, hb]
  have h2 := runMid_baseline cfg ops (startAnimation p i s).1
  rw [h1] at h2
  simp [stopAnimation, h2]

/-- Witness for `start_stop_roundtrip`: a fresh engine, `start(rain, 5)`,
one committed tick and one `changePattern(wave)`, then `stop`. -/
theorem start_stop_roundtrip_witness :
    (initEngine ⟨2, 2, 500⟩).anim.baselineGrid = none ∧
    (stopAnimation (runMid ⟨2, 2, 500⟩
        (startAnimation .rain 5 (initEngine ⟨2, 2, 500⟩)).1
        [RunOp.step oracleFalse,
          RunOp.change .wave (fun _ _ => false)])).1.grid =
      (initEngine ⟨2, 2, 500⟩).grid :=
  ⟨rfl, start_stop_roundtrip ⟨2, 2, 500⟩ (initEngine ⟨2, 2, 500⟩) rfl .rain 5
    [RunOp.step oracleFalse, RunOp.change .wave (fun _ _ => false)]⟩

/-- A running state carrying a baseline, used as concrete input below. -/
def stopCexState : EngineState :=
  { grid := [[0]]
    anim := { isRunning := true
              currentPattern := .gameOfLife
              generation := 2
              patternState := emptyPatternState
              activeLetterIndex := some 1
              baselineGrid := some [[1]] } }

/-- C2 counterexample: `stopAnimation` spreads the previous state through,
so `baselineGrid` is NOT cleared back to `none` by a stop. -/
theorem stopAnimation_keeps_baseline :
    (stopAnimation stopCexState).1.anim.baselineGrid ≠ none := by
  decide

/-- C2 (amended): `stop()` restores the live grid to the baseline when one
is present and leaves it unchanged otherwise, sets `isRunning := false`
and `activeLetterIndex := none` — and retains `baselineGrid` unchanged
rather than clearing it. -/
theorem stopAnimation_spec (s : EngineState) :
    (∀ b, s.anim.baselineGrid = some b → (stopAnimation s).1.grid = b) ∧
    (s.anim.baselineGrid = none → (stopAnimation s).1.grid = s.grid) ∧
    (stopAnimation s).1.anim.isRunning = false ∧
    (stopAnimation s).1.anim.activeLetterIndex = none ∧
    (stopAnimation s).1.anim.baselineGrid = s.anim.baselineGrid := by
  refine ⟨?_, ?_, rfl, rfl, rfl⟩
  · intro b hb
    simp [stopAnimation, hb]
  · intro hb
    simp [stopAnimation, hb]

/-- Witness for `stopAnimation_spec` at the concrete running state. -/
theorem stopAnimation_spec_witness :
    stopCexState.anim.baselineGrid = some [[1]] ∧
    (stopAnimation stopCexState).1.grid = [[1]] :=
  ⟨rfl, (stopAnimation_spec stopCexState).1 [[1]] rfl⟩

/-- C10: when a running tick hits an auto-stop condition (Game of Life
stabilization or the generation limit), the resulting state is exactly the
old state with only `isRunning` cleared: the live grid is not restored to
the baseline, and `baselineGrid`, `activeLetterIndex`, `currentPattern`,
`generation` and `patternState` are all left unchanged. -/
theorem autoStop_only_clears_isRunning (cfg : Config) (o : Oracle)
    (s : EngineState) (hrun : s.anim.isRunning = true)
    (hstop : (s.anim.currentPattern = .gameOfLife ∧
        (executePattern cfg.rows cfg.cols o s.grid s.anim.currentPattern
          s.anim.patternState).2.1 = false) ∨
      cfg.maxGenerations ≤ s.anim.generation) :
    (animate cfg o s).1 =
      { grid := s.grid, anim := { s.anim with isRunning := false } } := by
  unfold animate
  rw [if_neg (by rw [hrun]; simp)]
  dsimp only
  rcases hstop with h | h
  · rw [if_pos h]
  · by_cases h1 : s.anim.currentPattern = .gameOfLife ∧
        (executePattern cfg.rows cfg.cols o s.grid s.anim.currentPattern
          s.anim.patternState).2.1 = false
    · rw [if_pos h1]
    · rw [if_neg h1, if_pos h]

/-- A running state at the generation limit of a `1 × 1` engine. -/
def autoStopState : EngineState :=
  { grid := [[1]]
    anim := { isRunning := true
              currentPattern := .rain
              generation := 0
              patternState := emptyPatternState
              activeLetterIndex := some 3
              baselineGrid := some [[0]] } }

/-- Witness for `autoStop_only_clears_isRunning` at the generation limit. -/
theorem autoStop_only_clears_isRunning_witness :
    (autoStopState.anim.isRunning = true ∧
      (⟨1, 1, 0⟩ : Config).maxGenerations ≤ autoStopState.anim.generation) ∧
    (animate ⟨1, 1, 0⟩ oracleFalse autoStopState).1 =
      { grid := autoStopState.grid
        anim := { autoStopState.anim with isRunning := false } } :=
  ⟨⟨rfl, by decide⟩,
    autoStop_only_clears_isRunning ⟨1, 1, 0⟩ oracleFalse autoStopState rfl
      (Or.inr (by decide))⟩

/-- C5: a committing tick runs the pattern step first and checks the
stopping conditions against the proposed step before committing — on
Game-of-Life stabilization or once the generation limit is reached, the
grid is left exactly as it was this tick, `isRunning` is cleared and the
stopped notification fires; consequently `generation` never exceeds the
configured maximum along any operation sequence from the initial state. -/
theorem tick_stop_conditions_and_bound (cfg : Config) :
    (∀ (o : Oracle) (s : EngineState), s.anim.isRunning = true →
      ((s.anim.currentPattern = .gameOfLife ∧
          (executePattern cfg.rows cfg.cols o s.grid s.anim.currentPattern
            s.anim.patternState).2.1 = false) ∨
        cfg.maxGenerations ≤ s.anim.generation) →
      (animate cfg o s).1.grid = s.grid ∧
      (animate cfg o s).1.anim.isRunning = false ∧
      (animate cfg o s).2 = [.stopped]) ∧
    (∀ ops : List EngineOp,
      (runOps cfg (initEngine cfg) ops).anim.generation ≤
        cfg.maxGenerations) := by
  constructor
  · intro o s hrun hstop
    unfold animate
    rw [if_neg (by rw [hrun]; simp)]
    dsimp only
    rcases hstop with h | h
    · rw [if_pos h]
      exact ⟨rfl, rfl, rfl⟩
    · by_cases h1 : s.anim.currentPattern = .gameOfLife ∧
          (executePattern cfg.rows cfg.cols o s.grid s.anim.currentPattern
            s.anim.patternState).2.1 = false
      · rw [if_pos h1]
        exact ⟨rfl, rfl, rfl⟩
      · rw [if_neg h1, if_pos h]
        exact ⟨rfl, rfl, rfl⟩
  · have hstep : ∀ (op : EngineOp) (s : EngineState),
        s.anim.generation ≤ cfg.maxGenerations →
        (applyOp cfg s op).anim.generation ≤ cfg.maxGenerations := by
      intro op s h
      cases op with
      | start p i => exact Nat.zero_le _
      | stop => exact h
      | change p rand => exact Nat.zero_le _
      | reset => exact Nat.zero_le _
      | randomize rand => exact Nat.zero_le _
      | tick o =>
        show (animate cfg o s).1.anim.generation ≤ _
        unfold animate
        by_cases h0 : s.anim.isRunning = false
        · rw [if_pos h0]
          exact h
        · rw [if_neg h0]
          dsimp only
          by_cases h1 : s.anim.currentPattern = .gameOfLife ∧
              (executePattern cfg.rows cfg.cols o s.grid
                s.anim.currentPattern s.anim.patternState).2.1 = false
          · rw [if_pos h1]
            exact h
          · rw [if_neg h1]
            by_cases h2 : cfg.maxGenerations ≤ s.anim.generation
            · rw [if_pos h2]
              exact h
            · rw [if_neg h2]
              dsimp only
              omega
    have hind : ∀ (ops : List EngineOp) (s : EngineState),
        s.anim.generation ≤ cfg.maxGenerations →
        (runOps cfg s ops).anim.generation ≤ cfg.maxGenerations := by
      intro ops
      induction ops with
      | nil => intro s h; exact h
      | cons op ops ih => intro s h; exact ih _ (hstep op s h)
    intro ops
    exact hind ops _ (Nat.zero_le _)

/-- A `1 × 1` running Game-of-Life state whose next step does not change
the (all-dead) grid, so the stabilization stop fires. -/
def golStopState : EngineState :=
  { grid := [[0]]
    anim := { isRunning := true
              currentPattern := .gameOfLife
              generation := 1
              patternState := emptyPatternState
              activeLetterIndex := some 0
              baselineGrid := some [[0]] } }

/-- Witness for `tick_stop_conditions_and_bound` on the stabilized
Game-of-Life state and a concrete two-operation run. -/
theorem tick_stop_conditions_and_bound_witness :
    (golStopState.anim.isRunning = true ∧
      golStopState.anim.currentPattern = .gameOfLife ∧
      (executePattern 1 1 oracleFalse golStopState.grid
        golStopState.anim.currentPattern golStopState.anim.patternState).2.1 =
        false) ∧
    ((animate ⟨1, 1, 500⟩ oracleFalse golStopState).1.grid =
        golStopState.grid ∧
      (animate ⟨1, 1, 500⟩ oracleFalse golStopState).1.anim.isRunning =
        false ∧
      (animate ⟨1, 1, 500⟩ oracleFalse golStopState).2 = [.stopped]) ∧
    (runOps ⟨1, 1, 500⟩ (initEngine ⟨1, 1, 500⟩)
        [EngineOp.start .gameOfLife 0,
          EngineOp.tick oracleFalse]).anim.generation ≤ 500 :=
  ⟨⟨rfl, rfl, by decide⟩,
    (tick_stop_conditions_and_bound ⟨1, 1, 500⟩).1 oracleFalse golStopState
      rfl (Or.inl ⟨rfl, by decide⟩),
    (tick_stop_conditions_and_bound ⟨1, 1, 500⟩).2
      [EngineOp.start .gameOfLife 0, EngineOp.tick oracleFalse]⟩

/-- C6: a committed tick (running, no stop condition) increments
`generation` by exactly 1, and each of `start`, `changePattern`, `reset`
and `randomize` sets it back to 0. -/
theorem generation_semantics (cfg : Config) :
    (∀ (o : Oracle) (s : EngineState), s.anim.isRunning = true →
      ¬(s.anim.currentPattern = .gameOfLife ∧
        (executePattern cfg.rows cfg.cols o s.grid s.anim.currentPattern
          s.anim.patternState).2.1 = false) →
      s.anim.generation < cfg.maxGenerations →
      (animate cfg o s).1.anim.generation = s.anim.generation + 1) ∧
    (∀ p i s, (startAnimation p i s).1.anim.generation = 0) ∧
    (∀ p rand s, (changePattern cfg p rand s).1.anim.generation = 0) ∧
    (∀ s, (resetGrid cfg s).1.anim.generation = 0) ∧
    (∀ rand s, (randomizeGrid cfg rand s).1.anim.generation = 0) := by
  refine ⟨?_, fun p i s => rfl, fun p rand s => rfl, fun s => rfl,
    fun rand s => rfl⟩
  intro o s hrun hngol hlt
  unfold animate
  rw [if_neg (by rw [hrun]; simp)]
  dsimp only
  rw [if_neg hngol, if_neg (by omega)]

/-- A `1 × 1` running rain state below the generation limit. -/
def rainRunState : EngineState :=
  { grid := [[0]]
    anim := { isRunning := true
              currentPattern := .rain
              generation := 7
              patternState := emptyPatternState
              activeLetterIndex := some 5
              baselineGrid := some [[0]] } }

/-- Witness for `generation_semantics` on a committed rain tick. -/
theorem generation_semantics_witness :
    (rainRunState.anim.isRunning = true ∧
      ¬(rainRunState.anim.currentPattern = .gameOfLife ∧
        (executePattern 1 1 oracleFalse rainRunState.grid
          rainRunState.anim.currentPattern
          rainRunState.anim.patternState).2.1 = false) ∧
      rainRunState.anim.generation < 500) ∧
    (animate ⟨1, 1, 500⟩ oracleFalse rainRunState).1.anim.generation =
      rainRunState.anim.generation + 1 :=
  ⟨⟨rfl, by decide, by decide⟩,
    (generation_semantics ⟨1, 1, 500⟩).1 oracleFalse rainRunState rfl
      (by decide) (by decide)⟩

/-- C8 counterexample: the non-positive configuration `rows = 0`,
`cols = 0` is accepted at construction — no configuration error. -/
theorem constructGrid_zero_accepted :
    ((0 : Int) ≤ 0 ∧ (0 : Int) ≤ 0) ∧ (constructGrid 0 0).isOk = true := by
  decide

/-- C8 (amended): construction performs no configuration validation:
it fails only where `new Array` itself throws — negative `rows`, or
negative `cols` with at least one row built — and silently accepts zero
dimensions, producing the (possibly degenerate) all-zero grid. -/
theorem constructGrid_spec (rows cols : Int) :
    ((constructGrid rows cols).isOk = false ↔
      rows < 0 ∨ (0 < rows ∧ cols < 0)) ∧
    (∀ g, constructGrid rows cols = .ok g →
      g = createEmptyGrid rows.toNat cols.toNat) := by
  constructor
  · unfold constructGrid
    split_ifs with h1 h2
    · simp [Except.isOk, Except.toBool, h1]
    · simp [Except.isOk, Except.toBool, h1, h2]
    · simp only [Except.isOk, Except.toBool, Bool.true_eq_false, false_iff]
      omega
  · intro g hg
    unfold constructGrid at hg
    split_ifs at hg
    exact (Except.ok.inj hg).symm

/-- Witness for `constructGrid_spec` at accepted and rejected inputs. -/
theorem constructGrid_spec_witness :
    ([[0, 0, 0], [0, 0, 0]] : Grid) = createEmptyGrid 2 3 ∧
    ((constructGrid (-1) 3).isOk = false ↔
      ((-1 : Int) < 0 ∨ (0 < (-1 : Int) ∧ (3 : Int) < 0))) :=
  ⟨(constructGrid_spec 2 3).2 [[0, 0, 0], [0, 0, 0]] (by rfl),
    (constructGrid_spec (-1) 3).1⟩

end ContribHeatmap
